import Mathlib

/-!
Verification of the gamepad-mapper core: a shallow embedding of the
edge-triggered input-to-keystroke engine (`InputProcessor`), the key-name
resolver (`KeyResolver`) and the per-device lifecycle (`GamepadDevice`),
together with theorems settling the specification's claims about them.

Each definition mirrors one function of the C++ source; comments give the
source location.
-/

namespace GamepadMapper

/-! ## Data model (Constants.h, dinput joystick state) -/

/-- The logical axis directions.  `enum AxisDirection` in `Constants.h`:
`AX_LEFT = 0, AX_RIGHT = 1, AX_UP = 2, AX_DOWN = 3`. -/
inductive Dir where
  | left
  | right
  | up
  | down
deriving DecidableEq, Repr, Fintype

/-- The slice of a `DIJOYSTATE2` sample that `InputProcessor` reads:
one byte per button (`rgbButtons`, pressed iff bit `0x80`), the first
hat value `rgdwPOV[0]` (a `DWORD`, `0xFFFFFFFF` = centered) and the two
primary axes `lX`, `lY` (signed `LONG`s, configured range `[-1000,1000]`). -/
structure JoyState where
  rgbButtons : Nat → Nat
  pov : Nat
  lX : Int
  lY : Int

/-- `AppConstants::MAX_BUTTONS` -/
def maxButtons : Nat := 128

/-- The compiled, read-only key mapping that `ConfigManager` exposes to the
processor: `getButtonKeys`, `getDpadKeys`, `getStickKeys`,
`getStickThreshold`. -/
structure KeyMapping where
  buttonKeys : Nat → List Nat
  dpadKeys : Dir → List Nat
  stickKeys : Dir → List Nat
  stickThreshold : Int

/-- Previous-frame state of one `InputProcessor` (the EdgeDetector):
`m_prevButtons`, `m_prevPOV`, `m_prevAxisDown`. -/
structure ProcState where
  prevButtons : Nat → Bool
  prevPOV : Nat
  prevAxisDown : Dir → Bool

/-- `InputProcessor::ResetState`: all buttons released, hat centered,
all four directions released. -/
def resetState : ProcState :=
  { prevButtons := fun _ => false
    prevPOV := 0xFFFFFFFF
    prevAxisDown := fun _ => false }

/-- A transition reported by the edge detector: the internal
`ProcessButtonInternal` / `ProcessPOVDirection` / `ProcessAxisDirection`
calls, carrying the index or direction and the new active flag. -/
inductive Event where
  | button : Nat → Bool → Event
  | pov : Dir → Bool → Event
  | axis : Dir → Bool → Event
deriving DecidableEq, Repr

/-- Point update of the stored button bit. -/
def setButton (s : ProcState) (i : Nat) (b : Bool) : ProcState :=
  { s with prevButtons := fun j => if j = i then b else s.prevButtons j }

/-- Point update of one stored direction slot. -/
def setAxis (s : ProcState) (d : Dir) (b : Bool) : ProcState :=
  { s with prevAxisDown := fun e => if e = d then b else s.prevAxisDown e }

/-- `(js.rgbButtons[i] & 0x80) != 0` -/
def buttonPressed (js : JoyState) (i : Nat) : Bool :=
  decide (js.rgbButtons i &&& 0x80 ≠ 0)

/-! ## InputProcessor::ProcessButtons (InputProcessor.cpp:132-145) -/

/-- One iteration of the button loop: skip unmapped indices; on a changed
bit record the transition and store the new bit. -/
def buttonStep (cfg : KeyMapping) (js : JoyState)
    (acc : List Event × ProcState) (i : Nat) : List Event × ProcState :=
  if cfg.buttonKeys i = [] then acc
  else
    let pressed := buttonPressed js i
    if pressed ≠ acc.2.prevButtons i then
      (acc.1 ++ [.button i pressed], setButton acc.2 i pressed)
    else acc

/-- `InputProcessor::ProcessButtons`: the loop `for i in 0..MAX_BUTTONS`. -/
def processButtons (cfg : KeyMapping) (s : ProcState) (js : JoyState) :
    List Event × ProcState :=
  (List.range maxButtons).foldl (buttonStep cfg js) ([], s)

/-! ## InputProcessor::ProcessPOV (InputProcessor.cpp:180-212) -/

/-- The centered-hat sentinel. -/
def povCentered : Nat := 0xFFFFFFFF

/-- The four direction booleans computed from `rgdwPOV[0]`
(InputProcessor.cpp:186-191). -/
def povDirs (pov : Nat) (d : Dir) : Bool :=
  if pov = povCentered then false
  else
    match d with
    | .up => decide (pov ≤ 4500 ∨ 31500 ≤ pov)
    | .right => decide (4500 ≤ pov ∧ pov ≤ 13500)
    | .down => decide (13500 ≤ pov ∧ pov ≤ 22500)
    | .left => decide (22500 ≤ pov ∧ pov ≤ 31500)

/-- One `if (x != m_prevAxisDown[AX_x]) { ProcessDirection; store }` block,
shared shape of the four hat blocks and the four stick blocks. -/
def dirStep (mk : Dir → Bool → Event) (d : Dir) (active : Bool)
    (es : List Event) (s : ProcState) : List Event × ProcState :=
  if active ≠ s.prevAxisDown d then (es ++ [mk d active], setAxis s d active)
  else (es, s)

/-- `InputProcessor::ProcessPOV`: directions examined in the order
up, down, left, right; finally `m_prevPOV = pov`. -/
def processPOV (s : ProcState) (js : JoyState) : List Event × ProcState :=
  let pov := js.pov
  let r1 := dirStep .pov .up (povDirs pov .up) [] s
  let r2 := dirStep .pov .down (povDirs pov .down) r1.1 r1.2
  let r3 := dirStep .pov .left (povDirs pov .left) r2.1 r2.2
  let r4 := dirStep .pov .right (povDirs pov .right) r3.1 r3.2
  (r4.1, { r4.2 with prevPOV := pov })

/-! ## InputProcessor::ProcessAnalogSticks (InputProcessor.cpp:258-284) -/

/-- The four stick booleans (InputProcessor.cpp:262-265): strict
comparison of `lX`, `lY` against the configured threshold. -/
def stickDirs (t x y : Int) (d : Dir) : Bool :=
  match d with
  | .left => decide (x < -t)
  | .right => decide (x > t)
  | .up => decide (y < -t)
  | .down => decide (y > t)

/-- `InputProcessor::ProcessAnalogSticks`: directions examined in the order
left, right, up, down. -/
def processAnalogSticks (cfg : KeyMapping) (s : ProcState) (js : JoyState) :
    List Event × ProcState :=
  let t := cfg.stickThreshold
  let r1 := dirStep .axis .left (stickDirs t js.lX js.lY .left) [] s
  let r2 := dirStep .axis .right (stickDirs t js.lX js.lY .right) r1.1 r1.2
  let r3 := dirStep .axis .up (stickDirs t js.lX js.lY .up) r2.1 r2.2
  let r4 := dirStep .axis .down (stickDirs t js.lX js.lY .down) r3.1 r3.2
  r4

/-- `InputProcessor::ProcessGamepadInput`: buttons, then hat, then sticks. -/
def processGamepadInput (cfg : KeyMapping) (s : ProcState) (js : JoyState) :
    List Event × ProcState :=
  let rb := processButtons cfg s js
  let rp := processPOV rb.2 js
  let ra := processAnalogSticks cfg rp.2 js
  (rb.1 ++ rp.1 ++ ra.1, ra.2)

/-! ## InputProcessor::CreateKeyInputSequence (InputProcessor.cpp:82-109) -/

/-- `KEYEVENTF_KEYUP` -/
def keyUpFlag : Nat := 2

/-- One synthesized `INPUT` entry: virtual-key code and flags
(0 = key down, `KEYEVENTF_KEYUP` = key up). -/
structure KeyInput where
  wVk : Nat
  dwFlags : Nat
deriving DecidableEq, Repr

/-- `InputProcessor::CreateKeyInputSequence`: on press the loop reads
`vks[i]`, on release `vks[n-1-i]` with the key-up flag. -/
def createKeyInputSequence (vks : List Nat) (down : Bool) : List KeyInput :=
  let n := vks.length
  if down then
    (List.range n).map fun i => ⟨vks.getD i 0, 0⟩
  else
    (List.range n).map fun i => ⟨vks.getD (n - 1 - i) 0, keyUpFlag⟩

/-! ## KeyResolver (KeyResolver.cpp) -/

/-- Per-character `std::tolower` in the C locale: only `A`–`Z` map down. -/
def toLowerAscii (c : Char) : Char :=
  if 65 ≤ c.toNat ∧ c.toNat ≤ 90 then Char.ofNat (c.toNat + 32) else c

/-- The lowercasing loop in `KeyResolver::resolve`. -/
def lowerStr (s : String) : String := String.mk (s.data.map toLowerAscii)

/-- `KeyResolver::createKeyMap()` as an association list: letters map to
their uppercase code, digits to themselves, then the named specials,
modifiers, F1–F12, arrows and print-screen (Windows VK values). -/
def keyMapList : List (String × Nat) :=
  ((List.range 26).map fun k => (String.mk [Char.ofNat (97 + k)], 65 + k)) ++
  ((List.range 10).map fun k => (String.mk [Char.ofNat (48 + k)], 48 + k)) ++
  [("space", 0x20), ("enter", 0x0D), ("escape", 0x1B), ("tab", 0x09),
   ("backspace", 0x08), ("delete", 0x2E),
   ("ctrl", 0x11), ("alt", 0x12), ("shift", 0x10),
   ("win", 0x5B), ("lwin", 0x5B), ("rwin", 0x5C)] ++
  ((List.range 12).map fun k => ("f" ++ toString (k + 1), 0x70 + k)) ++
  [("up", 0x26), ("down", 0x28), ("left", 0x25), ("right", 0x27),
   ("printscreen", 0x2C), ("prtsc", 0x2C)]

/-- `isspace` in the C locale: space, tab, newline, vertical tab, form
feed, carriage return. -/
def isSpaceChar (c : Char) : Bool :=
  decide (c.toNat = 32 ∨ c.toNat = 9 ∨ c.toNat = 10 ∨ c.toNat = 11 ∨
    c.toNat = 12 ∨ c.toNat = 13)

/-- Digit value of a character in the given base (`0`–`9`, `a`–`z`,
`A`–`Z`); a character counts as a digit only when its value is below the
base. -/
def digitVal (base : Nat) (c : Char) : Option Nat :=
  if 48 ≤ c.toNat ∧ c.toNat ≤ 57 ∧ c.toNat - 48 < base then
    some (c.toNat - 48)
  else if 97 ≤ c.toNat ∧ c.toNat ≤ 122 ∧ c.toNat - 87 < base then
    some (c.toNat - 87)
  else if 65 ≤ c.toNat ∧ c.toNat ≤ 90 ∧ c.toNat - 55 < base then
    some (c.toNat - 55)
  else none

/-- Longest prefix of digit values in the given base. -/
def digitsPrefix (base : Nat) : List Char → List Nat
  | [] => []
  | c :: cs =>
    match digitVal base c with
    | some v => v :: digitsPrefix base cs
    | none => []

/-- Accumulated value of a digit list. -/
def digitsValue (base : Nat) (ds : List Nat) : Nat :=
  ds.foldl (fun a v => a * base + v) 0

/-- Length of the leading whitespace `strtoll` skips. -/
def spaceLen (cs : List Char) : Nat := (cs.takeWhile isSpaceChar).length

/-- The optional sign after the whitespace: sign factor, characters
consumed, remaining input. -/
def signParse (cs : List Char) : Int × Nat × List Char :=
  match cs with
  | c :: cs2 =>
    if c = '-' then (-1, 1, cs2)
    else if c = '+' then (1, 1, cs2) else (1, 0, c :: cs2)
  | [] => (1, 0, [])

/-- Whether the input starts with a hexadecimal digit. -/
def hexDigitFollows (cs : List Char) : Bool :=
  match cs with
  | d :: _ => (digitVal 16 d).isSome
  | [] => false

/-- The optional `0x`/`0X` prefix in base 16, consumed only when a hex
digit follows: characters consumed, remaining input. -/
def hexPrefixParse (base : Nat) (cs : List Char) : Nat × List Char :=
  match base, cs with
  | 16, c0 :: c1 :: cs3 =>
    if c0 = '0' ∧ (c1 = 'x' ∨ c1 = 'X') ∧ hexDigitFollows cs3 = true
    then (2, cs3) else (0, c0 :: c1 :: cs3)
  | _, _ => (0, cs)

/-- `std::stoll` (`strtoll` semantics): skip leading whitespace, take an
optional sign, in base 16 consume an optional `0x`/`0X` prefix when a hex
digit follows, then the longest run of digits.  `none` models
`invalid_argument` (no digits) and `out_of_range` (value outside
`long long`); otherwise the signed value and the index one past the last
consumed character (`pos`). -/
def strtollModel (base : Nat) (cs : List Char) : Option (Int × Nat) :=
  let ws := spaceLen cs
  let sp := signParse (cs.drop ws)
  let pr := hexPrefixParse base sp.2.2
  let ds := digitsPrefix base pr.2
  if ds = [] then none
  else
    let v : Int := sp.1 * (digitsValue base ds : Nat)
    if v > 9223372036854775807 ∨ v < -9223372036854775808 then none
    else some (v, ws + sp.2.1 + pr.1 + ds.length)

/-- `static_cast<long>` of a `long long` with MSVC's 32-bit `long`:
two's-complement truncation. -/
def toInt32 (v : Int) : Int :=
  let r := v % 4294967296
  if r < 2147483648 then r else r - 4294967296

/-- The `keyName.size() > 2` and `substr(0, 2)` test selecting base 16. -/
def isHexName (cs : List Char) : Bool :=
  decide (2 < cs.length ∧ (cs.take 2 = ['0', 'x'] ∨ cs.take 2 = ['0', 'X']))

/-- `KeyResolver::parseNumericKey` (KeyResolver.cpp:36-55): base 16 when
the string is longer than two characters and starts `0x`/`0X`, else base
10; accept when the parse consumed the whole string and the truncated
`long` value lies in `[0, 0xFFFF]`. -/
def parseNumericKey (name : String) : Option Nat :=
  let cs := name.data
  match strtollModel (if isHexName cs then 16 else 10) cs with
  | none => none
  | some vp =>
    let lv := toInt32 vp.1
    if vp.2 = cs.length ∧ 0 ≤ lv ∧ lv ≤ 0xFFFF then some lv.toNat
    else none

/-- `KeyResolver::resolve` (KeyResolver.cpp:14-24): case-insensitive table
lookup, then the numeric fallback on the original name. -/
def resolve (keyName : String) : Option Nat :=
  match keyMapList.lookup (lowerStr keyName) with
  | some v => some v
  | none => parseNumericKey keyName

/-- `KeyResolver::resolveSequence` (KeyResolver.cpp:26-34): push each
resolvable name's code, silently skip the rest. -/
def resolveSequence (keys : List String) : List Nat :=
  keys.foldl
    (fun acc key =>
      match resolve key with
      | some v => acc ++ [v]
      | none => acc) []

/-! ## GamepadDevice (GamepadDevice.cpp) -/

/-- The `HRESULT` classes the controller distinguishes:
`DIERR_INPUTLOST`, `DIERR_NOTACQUIRED`, `DIERR_UNPLUGGED`, success, and
every other failure. -/
inductive HRes where
  | ok
  | inputLost
  | notAcquired
  | unplugged
  | otherFail
deriving DecidableEq, Repr

/-- Observable state of one `GamepadDevice`: whether `m_device` holds a
handle, whether `m_configManager` and `m_inputProcessor` are live (the
processor carrying its edge-detector state), the three flags, and the
last sample `m_currentState`. -/
structure Gamepad where
  device : Bool
  configLoaded : Bool
  proc : Option ProcState
  connected : Bool
  acquired : Bool
  initialized : Bool
  currentState : JoyState

/-- `GamepadDevice::UnacquireDevice` (GamepadDevice.cpp:262-269). -/
def unacquireDevice (g : Gamepad) : Gamepad :=
  if g.device ∧ g.acquired then { g with acquired := false } else g

/-- `GamepadDevice::AcquireDevice` (GamepadDevice.cpp:244-260), with the
platform `Acquire` outcome as an oracle. -/
def acquireDevice (g : Gamepad) (res : HRes) : Gamepad × Bool :=
  if ¬ g.device then (g, false)
  else if res = .ok then ({ g with acquired := true }, true)
  else ({ g with acquired := false }, false)

/-- `GamepadDevice::Shutdown` (GamepadDevice.cpp:69-90): early return when
not initialized; otherwise unacquire, drop processor, configuration and
device handle, clear all flags. -/
def shutdown (g : Gamepad) : Gamepad :=
  if ¬ g.initialized then g
  else
    let g1 := unacquireDevice g
    { g1 with
      proc := none
      configLoaded := false
      device := false
      connected := false
      acquired := false
      initialized := false }

/-- `GamepadDevice::PollAndGetState` (GamepadDevice.cpp:271-302), with the
platform `Poll`, `Acquire` and `GetDeviceState` outcomes as oracles and
the sample that a successful read would deliver.  On poll failure the
code calls `m_device->Acquire()` directly (not `AcquireDevice`), so
`m_acquired` is untouched there. -/
def pollAndGetState (g : Gamepad) (pollRes acquireRes stateRes : HRes)
    (sample : JoyState) : Gamepad × Bool :=
  if ¬ g.device ∨ ¬ g.initialized then ({ g with connected := false }, false)
  else if pollRes ≠ .ok ∧ acquireRes ≠ .ok then
    (if acquireRes = .inputLost ∨ acquireRes = .notAcquired
     then { g with connected := false } else g, false)
  else if stateRes ≠ .ok then
    (if stateRes = .inputLost ∨ stateRes = .notAcquired ∨
        stateRes = .unplugged
     then unacquireDevice { g with connected := false } else g, false)
  else ({ g with currentState := sample }, true)

/-- `GamepadDevice::TryToReconnect` (GamepadDevice.cpp:304-335): early
return when there is no DirectInput context or already connected;
recreate the device, reconfigure (dropping the handle on configure
failure), then `AcquireDevice`; only on acquisition success does the
controller become connected.  `m_inputProcessor` is never touched. -/
def tryToReconnect (g : Gamepad) (hasDI createOk configureOk acquireOk : Bool) :
    Gamepad × Bool :=
  if ¬ hasDI ∨ g.connected then (g, g.connected)
  else if ¬ createOk then (g, false)
  else
    let g1 := { g with device := true }
    if ¬ configureOk then ({ g1 with device := false }, false)
    else
      let ar := acquireDevice g1 (if acquireOk then .ok else .otherFail)
      if ar.2 then ({ ar.1 with connected := true }, true) else (ar.1, false)

/-! ## Derived notions used by the statements -/

/-- Select the transitions of button `i`. -/
def btnSel (i : Nat) : Event → Bool
  | .button j _ => decide (j = i)
  | _ => false

/-- Select the hat and stick transitions of logical direction `d`. -/
def dirSel (d : Dir) : Event → Bool
  | .pov e _ => decide (e = d)
  | .axis e _ => decide (e = d)
  | .button _ _ => false

/-- Position of a direction in the hat stage's examination order. -/
def povRank : Dir → Nat
  | .up => 0
  | .down => 1
  | .left => 2
  | .right => 3

/-- Position of a direction in the stick stage's examination order. -/
def stickRank : Dir → Nat
  | .left => 0
  | .right => 1
  | .up => 2
  | .down => 3

/-- Rank of an event in the order the code emits transitions: buttons
first, then the hat directions in up/down/left/right order, then the
stick directions in left/right/up/down order. -/
def stageRank : Event → Nat
  | .button _ _ => 0
  | .pov d _ => 10 + povRank d
  | .axis d _ => 20 + stickRank d

/-- Rank of an event in the order the specification claims: the same
staging, but the stick directions also in up/down/left/right order. -/
def claimRank : Event → Nat
  | .button _ _ => 0
  | .pov d _ => 10 + povRank d
  | .axis d _ => 20 + povRank d

/-- The hat-stage transition of one direction, expressed against the
stage's input state. -/
def povOpt (pov : Nat) (s : ProcState) (d : Dir) : List Event :=
  if povDirs pov d ≠ s.prevAxisDown d then [.pov d (povDirs pov d)] else []

/-- The stick-stage transition of one direction, expressed against the
stage's input state. -/
def stickOpt (t x y : Int) (s : ProcState) (d : Dir) : List Event :=
  if stickDirs t x y d ≠ s.prevAxisDown d then [.axis d (stickDirs t x y d)]
  else []

/-- One whole frame's effect on the edge-detector state. -/
def stepState (cfg : KeyMapping) (js : JoyState) (s : ProcState) : ProcState :=
  (processGamepadInput cfg s js).2

/-! ## Concrete instances used by witnesses and counterexamples -/

/-- Mapping: button 0 to key `A`, nothing else. -/
def cfgBtn : KeyMapping :=
  { buttonKeys := fun i => if i = 0 then [0x41] else []
    dpadKeys := fun _ => []
    stickKeys := fun _ => []
    stickThreshold := 1000 }

/-- Mapping: every hat direction to the up-arrow, every stick direction
to `W`, threshold 1000. -/
def cfgDirs : KeyMapping :=
  { buttonKeys := fun _ => []
    dpadKeys := fun _ => [0x26]
    stickKeys := fun _ => [0x57]
    stickThreshold := 1000 }

/-- A neutral sample: no buttons, hat centered, sticks at rest. -/
def jsNeutral : JoyState :=
  { rgbButtons := fun _ => 0, pov := povCentered, lX := 0, lY := 0 }

/-- A sample with only button 0 held. -/
def jsBtn0 : JoyState :=
  { rgbButtons := fun i => if i = 0 then 0x80 else 0
    pov := povCentered, lX := 0, lY := 0 }

/-- A sample with the hat pushed straight up and the sticks at rest. -/
def jsHatUp : JoyState :=
  { rgbButtons := fun _ => 0, pov := 0, lX := 0, lY := 0 }

/-- A sample with the left stick in the up-left diagonal past the
threshold. -/
def jsDiag : JoyState :=
  { rgbButtons := fun _ => 0, pov := povCentered, lX := -1001, lY := -1001 }

/-- Edge-detector state remembering button 0 as pressed. -/
def procHeld : ProcState :=
  { prevButtons := fun j => decide (j = 0)
    prevPOV := povCentered
    prevAxisDown := fun _ => false }

/-- A disconnected controller that still carries `procHeld` as its live
processor state. -/
def gDisc : Gamepad :=
  { device := true, configLoaded := true, proc := some procHeld
    connected := false, acquired := false, initialized := true
    currentState := jsNeutral }

/-- A connected, acquired, initialized controller. -/
def gConn : Gamepad :=
  { device := true, configLoaded := true, proc := some procHeld
    connected := true, acquired := true, initialized := true
    currentState := jsNeutral }

/-! ## Structure lemmas for the direction stages -/

theorem dirStep_fst (mk : Dir → Bool → Event) (d : Dir) (a : Bool)
    (es : List Event) (s : ProcState) :
    (dirStep mk d a es s).1 =
      es ++ (if a ≠ s.prevAxisDown d then [mk d a] else []) := by
  unfold dirStep
  split <;> simp_all

theorem dirStep_prevAxisDown (mk : Dir → Bool → Event) (d : Dir) (a : Bool)
    (es : List Event) (s : ProcState) (e : Dir) :
    (dirStep mk d a es s).2.prevAxisDown e =
      if e = d then a else s.prevAxisDown e := by
  unfold dirStep
  split
  · simp [setAxis]
  · next h =>
      push_neg at h
      by_cases he : e = d <;> simp [he, h]

theorem dirStep_prevButtons (mk : Dir → Bool → Event) (d : Dir) (a : Bool)
    (es : List Event) (s : ProcState) :
    (dirStep mk d a es s).2.prevButtons = s.prevButtons := by
  unfold dirStep
  split <;> simp [setAxis]

theorem dirStep_prevPOV (mk : Dir → Bool → Event) (d : Dir) (a : Bool)
    (es : List Event) (s : ProcState) :
    (dirStep mk d a es s).2.prevPOV = s.prevPOV := by
  unfold dirStep
  split <;> simp [setAxis]

theorem processPOV_fst (s : ProcState) (js : JoyState) :
    (processPOV s js).1 =
      povOpt js.pov s .up ++ povOpt js.pov s .down ++
      povOpt js.pov s .left ++ povOpt js.pov s .right := by
  simp only [processPOV, povOpt, dirStep_fst, dirStep_prevAxisDown]
  simp [List.append_assoc]

theorem processPOV_prevAxisDown (s : ProcState) (js : JoyState) (d : Dir) :
    (processPOV s js).2.prevAxisDown d = povDirs js.pov d := by
  cases d <;>
    simp [processPOV, dirStep_prevAxisDown]

theorem processPOV_prevButtons (s : ProcState) (js : JoyState) :
    (processPOV s js).2.prevButtons = s.prevButtons := by
  simp [processPOV, dirStep_prevButtons]

theorem processSticks_fst (cfg : KeyMapping) (s : ProcState) (js : JoyState) :
    (processAnalogSticks cfg s js).1 =
      stickOpt cfg.stickThreshold js.lX js.lY s .left ++
      stickOpt cfg.stickThreshold js.lX js.lY s .right ++
      stickOpt cfg.stickThreshold js.lX js.lY s .up ++
      stickOpt cfg.stickThreshold js.lX js.lY s .down := by
  simp only [processAnalogSticks, stickOpt, dirStep_fst, dirStep_prevAxisDown]
  simp [List.append_assoc]

theorem processSticks_prevAxisDown (cfg : KeyMapping) (s : ProcState)
    (js : JoyState) (d : Dir) :
    (processAnalogSticks cfg s js).2.prevAxisDown d =
      stickDirs cfg.stickThreshold js.lX js.lY d := by
  cases d <;>
    simp [processAnalogSticks, dirStep_prevAxisDown]

theorem processSticks_prevButtons (cfg : KeyMapping) (s : ProcState)
    (js : JoyState) :
    (processAnalogSticks cfg s js).2.prevButtons = s.prevButtons := by
  simp [processAnalogSticks, dirStep_prevButtons]

/-! ## Structure lemmas for the button stage -/

theorem btnFold_append (cfg : KeyMapping) (js : JoyState) (l : List Nat) :
    ∀ (es : List Event) (s : ProcState),
      l.foldl (buttonStep cfg js) (es, s) =
        (es ++ (l.foldl (buttonStep cfg js) ([], s)).1,
         (l.foldl (buttonStep cfg js) ([], s)).2) := by
  induction l with
  | nil => intro es s; simp
  | cons i l ih =>
      intro es s
      by_cases h1 : cfg.buttonKeys i = []
      · simpa [buttonStep, h1] using ih es s
      · by_cases h2 : buttonPressed js i = s.prevButtons i
        · simpa [buttonStep, h1, h2] using ih es s
        · have hstep : ∀ es0 : List Event, buttonStep cfg js (es0, s) i =
              (es0 ++ [Event.button i (buttonPressed js i)],
               setButton s i (buttonPressed js i)) := by
            intro es0; simp [buttonStep, h1, h2]
          rw [List.foldl_cons, List.foldl_cons, hstep, hstep,
            List.nil_append,
            ih (es ++ [Event.button i (buttonPressed js i)])
              (setButton s i (buttonPressed js i)),
            ih [Event.button i (buttonPressed js i)]
              (setButton s i (buttonPressed js i))]
          simp

theorem btnFold_filter (cfg : KeyMapping) (js : JoyState) (i : Nat)
    (l : List Nat) :
    ∀ s : ProcState,
      ((l.foldl (buttonStep cfg js) ([], s)).1).filter (btnSel i) =
        if i ∈ l ∧ cfg.buttonKeys i ≠ [] ∧
            buttonPressed js i ≠ s.prevButtons i
        then [.button i (buttonPressed js i)] else [] := by
  induction l with
  | nil => intro s; simp
  | cons j l ih =>
      intro s
      by_cases h1 : cfg.buttonKeys j = []
      · have hstep : buttonStep cfg js ([], s) j = ([], s) := by
          simp [buttonStep, h1]
        rw [List.foldl_cons, hstep, ih s]
        by_cases hij : i = j
        · subst hij
          simp [h1]
        · simp [hij]
      · by_cases h2 : buttonPressed js j = s.prevButtons j
        · have hstep : buttonStep cfg js ([], s) j = ([], s) := by
            simp [buttonStep, h1, h2]
          rw [List.foldl_cons, hstep, ih s]
          by_cases hij : i = j
          · subst hij
            simp [h2]
          · simp [hij]
        · have hstep : buttonStep cfg js ([], s) j =
              ([Event.button j (buttonPressed js j)],
               setButton s j (buttonPressed js j)) := by
            simp [buttonStep, h1, h2]
          rw [List.foldl_cons, hstep, btnFold_append, List.filter_append,
            ih (setButton s j (buttonPressed js j))]
          by_cases hij : i = j
          · subst hij
            have hset : (setButton s i (buttonPressed js i)).prevButtons i =
                buttonPressed js i := by simp [setButton]
            simp [btnSel, hset, h1, h2]
          · have hset : (setButton s j (buttonPressed js j)).prevButtons i =
                s.prevButtons i := by simp [setButton, hij]
            simp [btnSel, hset, hij, Ne.symm hij]

theorem btnFold_prevButtons (cfg : KeyMapping) (js : JoyState) (i : Nat)
    (l : List Nat) :
    ∀ s : ProcState,
      ((l.foldl (buttonStep cfg js) ([], s)).2).prevButtons i =
        if i ∈ l ∧ cfg.buttonKeys i ≠ [] then buttonPressed js i
        else s.prevButtons i := by
  induction l with
  | nil => intro s; simp
  | cons j l ih =>
      intro s
      by_cases h1 : cfg.buttonKeys j = []
      · have hstep : buttonStep cfg js ([], s) j = ([], s) := by
          simp [buttonStep, h1]
        rw [List.foldl_cons, hstep, ih s]
        by_cases hij : i = j
        · subst hij
          simp [h1]
        · simp [hij]
      · by_cases h2 : buttonPressed js j = s.prevButtons j
        · have hstep : buttonStep cfg js ([], s) j = ([], s) := by
            simp [buttonStep, h1, h2]
          rw [List.foldl_cons, hstep, ih s]
          by_cases hij : i = j
          · subst hij
            simp [h1, h2]
          · simp [hij]
        · have hstep : buttonStep cfg js ([], s) j =
              ([Event.button j (buttonPressed js j)],
               setButton s j (buttonPressed js j)) := by
            simp [buttonStep, h1, h2]
          rw [List.foldl_cons, hstep, btnFold_append,
            ih (setButton s j (buttonPressed js j))]
          by_cases hij : i = j
          · subst hij
            have hset : (setButton s i (buttonPressed js i)).prevButtons i =
                buttonPressed js i := by simp [setButton]
            simp [hset, h1]
          · have hset : (setButton s j (buttonPressed js j)).prevButtons i =
                s.prevButtons i := by simp [setButton, hij]
            simp [hset, hij]

theorem btnFold_prevAxisDown (cfg : KeyMapping) (js : JoyState)
    (l : List Nat) :
    ∀ s : ProcState,
      ((l.foldl (buttonStep cfg js) ([], s)).2).prevAxisDown =
        s.prevAxisDown ∧
      ((l.foldl (buttonStep cfg js) ([], s)).2).prevPOV = s.prevPOV := by
  induction l with
  | nil => intro s; simp
  | cons j l ih =>
      intro s
      by_cases h1 : cfg.buttonKeys j = []
      · have hstep : buttonStep cfg js ([], s) j = ([], s) := by
          simp [buttonStep, h1]
        rw [List.foldl_cons, hstep]
        exact ih s
      · by_cases h2 : buttonPressed js j = s.prevButtons j
        · have hstep : buttonStep cfg js ([], s) j = ([], s) := by
            simp [buttonStep, h1, h2]
          rw [List.foldl_cons, hstep]
          exact ih s
        · have hstep : buttonStep cfg js ([], s) j =
              ([Event.button j (buttonPressed js j)],
               setButton s j (buttonPressed js j)) := by
            simp [buttonStep, h1, h2]
          rw [List.foldl_cons, hstep, btnFold_append]
          simpa [setButton] using ih (setButton s j (buttonPressed js j))

theorem btnFold_shape (cfg : KeyMapping) (js : JoyState) (l : List Nat) :
    ∀ (s : ProcState) (e : Event),
      e ∈ (l.foldl (buttonStep cfg js) ([], s)).1 →
        ∃ j b, e = .button j b := by
  induction l with
  | nil => intro s e he; simp at he
  | cons j l ih =>
      intro s e he
      by_cases h1 : cfg.buttonKeys j = []
      · have hstep : buttonStep cfg js ([], s) j = ([], s) := by
          simp [buttonStep, h1]
        rw [List.foldl_cons, hstep] at he
        exact ih s e he
      · by_cases h2 : buttonPressed js j = s.prevButtons j
        · have hstep : buttonStep cfg js ([], s) j = ([], s) := by
            simp [buttonStep, h1, h2]
          rw [List.foldl_cons, hstep] at he
          exact ih s e he
        · have hstep : buttonStep cfg js ([], s) j =
              ([Event.button j (buttonPressed js j)],
               setButton s j (buttonPressed js j)) := by
            simp [buttonStep, h1, h2]
          rw [List.foldl_cons, hstep, btnFold_append] at he
          simp only [List.mem_append] at he
          rcases he with he | he
          · simp at he
            exact ⟨j, buttonPressed js j, he⟩
          · exact ih (setButton s j (buttonPressed js j)) e he

/-! ## Frame-level corollaries -/

theorem povStage_filter_btn (s : ProcState) (js : JoyState) (i : Nat) :
    ((processPOV s js).1).filter (btnSel i) = [] := by
  simp only [processPOV_fst, povOpt, List.filter_append]
  split_ifs <;> simp [btnSel]

theorem stickStage_filter_btn (cfg : KeyMapping) (s : ProcState)
    (js : JoyState) (i : Nat) :
    ((processAnalogSticks cfg s js).1).filter (btnSel i) = [] := by
  simp only [processSticks_fst, stickOpt, List.filter_append]
  split_ifs <;> simp [btnSel]

theorem frame_filter_btn (cfg : KeyMapping) (s : ProcState) (js : JoyState)
    (i : Nat) :
    ((processGamepadInput cfg s js).1).filter (btnSel i) =
      if i < maxButtons ∧ cfg.buttonKeys i ≠ [] ∧
          buttonPressed js i ≠ s.prevButtons i
      then [.button i (buttonPressed js i)] else [] := by
  simp only [processGamepadInput]
  rw [List.filter_append, List.filter_append, povStage_filter_btn,
    stickStage_filter_btn, List.append_nil, List.append_nil]
  show ((processButtons cfg s js).1).filter (btnSel i) = _
  rw [processButtons, btnFold_filter]
  simp [List.mem_range]

theorem frame_prevButtons (cfg : KeyMapping) (s : ProcState) (js : JoyState)
    (i : Nat) :
    (processGamepadInput cfg s js).2.prevButtons i =
      if i < maxButtons ∧ cfg.buttonKeys i ≠ [] then buttonPressed js i
      else s.prevButtons i := by
  simp only [processGamepadInput]
  rw [processSticks_prevButtons, processPOV_prevButtons]
  show ((processButtons cfg s js).2).prevButtons i = _
  rw [processButtons, btnFold_prevButtons]
  simp [List.mem_range]

theorem frame_prevAxisDown (cfg : KeyMapping) (s : ProcState) (js : JoyState)
    (d : Dir) :
    (processGamepadInput cfg s js).2.prevAxisDown d =
      stickDirs cfg.stickThreshold js.lX js.lY d := by
  simp only [processGamepadInput]
  rw [processSticks_prevAxisDown]

/-! ## Helper lemmas for CreateKeyInputSequence -/

theorem range_map_getD (l : List Nat) (d : Nat) :
    (List.range l.length).map (fun i => l.getD i d) = l := by
  induction l with
  | nil => simp
  | cons a l ih =>
      rw [List.length_cons, List.range_succ_eq_map, List.map_cons,
        List.map_map]
      have hf : ((fun i => (a :: l).getD i d) ∘ Nat.succ) =
          fun i => l.getD i d := by
        funext i
        simp
      rw [hf, ih]
      simp

theorem range_map_getD_rev (l : List Nat) (d : Nat) :
    (List.range l.length).map (fun i => l.getD (l.length - 1 - i) d) =
      l.reverse := by
  have h := range_map_getD l.reverse d
  rw [List.length_reverse] at h
  rw [← h]
  apply List.map_congr_left
  intro i hi
  rw [List.mem_range] at hi
  have h1 : l.length - 1 - i < l.length := by omega
  have h2 : i < l.reverse.length := by simpa using hi
  rw [List.getD_eq_getElem _ _ h1, List.getD_eq_getElem _ _ h2]
  simp [List.getElem_reverse]

/-! ## Claims C2, C4, C7 -/

/-- C2 counterexample: at hat angle 13500 (exactly 135°) the code
activates both down and right — the inclusive wedge bounds of
`ProcessPOV` overlap there — refuting "activates down only". -/
theorem hat_13500_also_right :
    povDirs 13500 Dir.down = true ∧ povDirs 13500 Dir.right = true := by
  decide

/-- C2 (amended): hat angle 0 activates up only, 9000 activates right
only, 13500 activates both down and right (adjacent inclusive wedges
overlap at the diagonal boundary), and the centered sentinel yields all
four directions inactive — and after a step on a centered sample all four
stored direction slots are false regardless of the prior state. -/
theorem hat_boundary_angles :
    (∀ d, povDirs 0 d = decide (d = Dir.up)) ∧
    (∀ d, povDirs 9000 d = decide (d = Dir.right)) ∧
    (∀ d, povDirs 13500 d =
      (decide (d = Dir.down) || decide (d = Dir.right))) ∧
    (∀ d, povDirs povCentered d = false) ∧
    (∀ (s : ProcState) (bs : Nat → Nat) (x y : Int) (d : Dir),
      (processPOV s ⟨bs, povCentered, x, y⟩).2.prevAxisDown d = false) := by
  refine ⟨by decide, by decide, by decide, by decide, ?_⟩
  intro s bs x y d
  rw [processPOV_prevAxisDown]
  simp [povDirs]

/-- C4: on a press the synthesized inputs carry the configured codes in
order with the key-down flag; on a release they carry them in exactly
reversed order with the key-up flag; in particular the mapping
`[ctrl, c] = [0x11, 0x43]` presses as `[0x11, 0x43]` and releases as
`[0x43, 0x11]`. -/
theorem key_sequence_order :
    (∀ vks : List Nat, createKeyInputSequence vks true =
      vks.map fun v => ⟨v, 0⟩) ∧
    (∀ vks : List Nat, createKeyInputSequence vks false =
      vks.reverse.map fun v => ⟨v, keyUpFlag⟩) ∧
    createKeyInputSequence [0x11, 0x43] true = [⟨0x11, 0⟩, ⟨0x43, 0⟩] ∧
    createKeyInputSequence [0x11, 0x43] false =
      [⟨0x43, keyUpFlag⟩, ⟨0x11, keyUpFlag⟩] := by
  refine ⟨?_, ?_, by decide, by decide⟩
  · intro vks
    show (List.range vks.length).map (fun i => (⟨vks.getD i 0, 0⟩ : KeyInput))
        = _
    rw [show (fun i => (⟨vks.getD i 0, 0⟩ : KeyInput)) =
        ((fun v => (⟨v, 0⟩ : KeyInput)) ∘ fun i => vks.getD i 0) from rfl,
      ← List.map_map, range_map_getD]
  · intro vks
    show (List.range vks.length).map
        (fun i => (⟨vks.getD (vks.length - 1 - i) 0, keyUpFlag⟩ : KeyInput))
        = _
    rw [show (fun i =>
          (⟨vks.getD (vks.length - 1 - i) 0, keyUpFlag⟩ : KeyInput)) =
        ((fun v => (⟨v, keyUpFlag⟩ : KeyInput)) ∘
          fun i => vks.getD (vks.length - 1 - i) 0) from rfl,
      ← List.map_map, range_map_getD_rev]

/-- C7: stick activation is strict (`value < -t` / `value > t`), with the
sign convention X negative → left, X positive → right, Y negative → up,
Y positive → down; a value exactly at `t` or `-t` activates nothing. -/
theorem stick_threshold_strict (t x y : Int) (ht : 0 ≤ t) :
    (stickDirs t x y .left = true ↔ x < -t) ∧
    (stickDirs t x y .right = true ↔ t < x) ∧
    (stickDirs t x y .up = true ↔ y < -t) ∧
    (stickDirs t x y .down = true ↔ t < y) ∧
    stickDirs t t y .left = false ∧ stickDirs t t y .right = false ∧
    stickDirs t (-t) y .left = false ∧ stickDirs t (-t) y .right = false ∧
    stickDirs t x t .up = false ∧ stickDirs t x t .down = false ∧
    stickDirs t x (-t) .up = false ∧ stickDirs t x (-t) .down = false := by
  refine ⟨by simp [stickDirs], by simp [stickDirs], by simp [stickDirs],
    by simp [stickDirs], ?_, ?_, ?_, ?_, ?_, ?_, ?_, ?_⟩ <;>
  · simp only [stickDirs, decide_eq_false_iff_not, gt_iff_lt, not_lt]
    omega

/-- Witness for C7 at threshold 1000, X = -1001, Y = 0. -/
theorem stick_threshold_strict_witness :
    (0 : Int) ≤ 1000 ∧
    ((stickDirs 1000 (-1001) 0 .left = true ↔ (-1001 : Int) < -1000) ∧
     (stickDirs 1000 (-1001) 0 .right = true ↔ (1000 : Int) < -1001) ∧
     (stickDirs 1000 (-1001) 0 .up = true ↔ (0 : Int) < -1000) ∧
     (stickDirs 1000 (-1001) 0 .down = true ↔ (1000 : Int) < 0) ∧
     stickDirs 1000 1000 0 .left = false ∧
     stickDirs 1000 1000 0 .right = false ∧
     stickDirs 1000 (-1000) 0 .left = false ∧
     stickDirs 1000 (-1000) 0 .right = false ∧
     stickDirs 1000 (-1001) 1000 .up = false ∧
     stickDirs 1000 (-1001) 1000 .down = false ∧
     stickDirs 1000 (-1001) (-1000) .up = false ∧
     stickDirs 1000 (-1001) (-1000) .down = false) :=
  ⟨by decide, stick_threshold_strict 1000 (-1001) 0 (by decide)⟩

/-! ## Claim C3: exactly one press, exactly one release per button edge -/

/-- C3: for a mapped button `i` that was recorded released, a frame with
`i` down yields exactly one transition for `i` — a PRESS — and the next
differing frame (with `i` up) yields exactly one transition — a RELEASE;
buttons with no configured sequence yield no transition at all. -/
theorem button_edge_exactly_once (cfg : KeyMapping) (s : ProcState)
    (js1 js2 : JoyState) (i : Nat)
    (hi : i < maxButtons) (hm : cfg.buttonKeys i ≠ [])
    (h0 : s.prevButtons i = false)
    (h1 : buttonPressed js1 i = true)
    (h2 : buttonPressed js2 i = false) :
    ((processGamepadInput cfg s js1).1).filter (btnSel i) =
      [.button i true] ∧
    ((processGamepadInput cfg
        (processGamepadInput cfg s js1).2 js2).1).filter (btnSel i) =
      [.button i false] ∧
    (∀ j, cfg.buttonKeys j = [] →
      ((processGamepadInput cfg s js1).1).filter (btnSel j) = []) := by
  have hs1 : (processGamepadInput cfg s js1).2.prevButtons i = true := by
    rw [frame_prevButtons]
    simp [hi, hm, h1]
  refine ⟨?_, ?_, ?_⟩
  · rw [frame_filter_btn]
    simp [hi, hm, h0, h1]
  · rw [frame_filter_btn]
    simp [hi, hm, hs1, h2]
  · intro j hj
    rw [frame_filter_btn]
    simp [hj]

/-- Witness for C3: button 0 mapped to key `A`, pressed in one frame and
released in the next. -/
theorem button_edge_exactly_once_witness :
    (0 < maxButtons ∧ cfgBtn.buttonKeys 0 ≠ [] ∧
     resetState.prevButtons 0 = false ∧ buttonPressed jsBtn0 0 = true ∧
     buttonPressed jsNeutral 0 = false) ∧
    (((processGamepadInput cfgBtn resetState jsBtn0).1).filter (btnSel 0) =
      [.button 0 true] ∧
     ((processGamepadInput cfgBtn
        (processGamepadInput cfgBtn resetState jsBtn0).2
        jsNeutral).1).filter (btnSel 0) = [.button 0 false] ∧
     (∀ j, cfgBtn.buttonKeys j = [] →
       ((processGamepadInput cfgBtn resetState jsBtn0).1).filter (btnSel j) =
         [])) :=
  ⟨⟨by decide, by decide, by decide, by decide, by decide⟩,
   button_edge_exactly_once cfgBtn resetState jsBtn0 jsNeutral 0
     (by decide) (by decide) (by decide) (by decide) (by decide)⟩

/-! ## Claim C5: emission order within a frame -/

theorem btnStage_filter_dir (cfg : KeyMapping) (s : ProcState)
    (js : JoyState) (d : Dir) :
    ((processButtons cfg s js).1).filter (dirSel d) = [] := by
  apply List.filter_eq_nil_iff.mpr
  intro e he
  obtain ⟨j, b, rfl⟩ := btnFold_shape cfg js (List.range maxButtons) s e he
  simp [dirSel]

theorem filter_povOpt_ne (p : Nat) (s : ProcState) (d e : Dir)
    (hne : e ≠ d) :
    (povOpt p s e).filter (dirSel d) = [] := by
  unfold povOpt
  split <;> simp [dirSel, hne]

theorem filter_povOpt_eq (p : Nat) (s : ProcState) (d : Dir)
    (hd : povDirs p d = true) (hprev : s.prevAxisDown d = false) :
    (povOpt p s d).filter (dirSel d) = [.pov d true] := by
  unfold povOpt
  rw [hd, hprev]
  simp [dirSel]

theorem filter_stickOpt_ne (t x y : Int) (s : ProcState) (d e : Dir)
    (hne : e ≠ d) :
    (stickOpt t x y s e).filter (dirSel d) = [] := by
  unfold stickOpt
  split <;> simp [dirSel, hne]

theorem filter_stickOpt_eq (t x y : Int) (s : ProcState) (d : Dir)
    (hd : stickDirs t x y d = false) (hprev : s.prevAxisDown d = true) :
    (stickOpt t x y s d).filter (dirSel d) = [.axis d false] := by
  unfold stickOpt
  rw [hd, hprev]
  simp [dirSel]

theorem povStage_filter_eq (s : ProcState) (js : JoyState) (d : Dir)
    (hd : povDirs js.pov d = true) (hprev : s.prevAxisDown d = false) :
    ((processPOV s js).1).filter (dirSel d) = [.pov d true] := by
  rw [processPOV_fst]
  simp only [List.filter_append]
  cases d <;>
    rw [filter_povOpt_eq _ _ _ hd hprev] <;>
    rw [filter_povOpt_ne _ _ _ _ (by decide), filter_povOpt_ne _ _ _ _
      (by decide), filter_povOpt_ne _ _ _ _ (by decide)] <;>
    rfl

theorem stickStage_filter_eq (cfg : KeyMapping) (s : ProcState)
    (js : JoyState) (d : Dir)
    (hd : stickDirs cfg.stickThreshold js.lX js.lY d = false)
    (hprev : s.prevAxisDown d = true) :
    ((processAnalogSticks cfg s js).1).filter (dirSel d) =
      [.axis d false] := by
  rw [processSticks_fst]
  simp only [List.filter_append]
  cases d <;>
    rw [filter_stickOpt_eq _ _ _ _ _ hd hprev] <;>
    rw [filter_stickOpt_ne _ _ _ _ _ _ (by decide), filter_stickOpt_ne
      _ _ _ _ _ _ (by decide), filter_stickOpt_ne _ _ _ _ _ _ (by decide)] <;>
    rfl

theorem povStage_shape (s : ProcState) (js : JoyState) (e : Event)
    (he : e ∈ (processPOV s js).1) : ∃ d b, e = .pov d b := by
  rw [processPOV_fst] at he
  simp only [povOpt, List.mem_append] at he
  rcases he with ((he | he) | he) | he <;> split at he <;> simp_all

theorem stickStage_shape (cfg : KeyMapping) (s : ProcState) (js : JoyState)
    (e : Event) (he : e ∈ (processAnalogSticks cfg s js).1) :
    ∃ d b, e = .axis d b := by
  rw [processSticks_fst] at he
  simp only [stickOpt, List.mem_append] at he
  rcases he with ((he | he) | he) | he <;> split at he <;> simp_all

theorem sorted_map_opt_four {p1 p2 p3 p4 : Prop} [Decidable p1]
    [Decidable p2] [Decidable p3] [Decidable p4] (f : Event → Nat)
    (e1 e2 e3 e4 : Event) (h12 : f e1 ≤ f e2) (h23 : f e2 ≤ f e3)
    (h34 : f e3 ≤ f e4) :
    List.Sorted (· ≤ ·)
      (((if p1 then [e1] else []) ++ (if p2 then [e2] else []) ++
        (if p3 then [e3] else []) ++ (if p4 then [e4] else [])).map f) := by
  have h13 : f e1 ≤ f e3 := le_trans h12 h23
  have h24 : f e2 ≤ f e4 := le_trans h23 h34
  have h14 : f e1 ≤ f e4 := le_trans h12 h24
  split_ifs <;> simp_all [List.sorted_cons]

/-- C5 counterexample: with the left stick pushed to the up-left diagonal
from a neutral previous state the code emits the left transition before
the up transition, so the claimed up/down/left/right examination order
within the stick stage does not hold. -/
theorem emission_order_claim_false :
    ¬ List.Sorted (· ≤ ·)
      (((processGamepadInput cfgDirs resetState jsDiag).1).map claimRank) := by
  decide

/-- C5 (amended): transitions are emitted in a deterministic order — all
button transitions first, then the hat directions examined in the order
up, down, left, right, then the stick directions examined in the order
left, right, up, down — captured by `stageRank` being monotone along the
emitted list. -/
theorem emission_order_sorted (cfg : KeyMapping) (s : ProcState)
    (js : JoyState) :
    List.Sorted (· ≤ ·)
      (((processGamepadInput cfg s js).1).map stageRank) := by
  have hb : ∀ e ∈ (processButtons cfg s js).1, stageRank e = 0 := by
    intro e he
    obtain ⟨j, b, rfl⟩ :=
      btnFold_shape cfg js (List.range maxButtons) s e he
    rfl
  have hpov : ∀ s2, ∀ e ∈ (processPOV s2 js).1,
      10 ≤ stageRank e ∧ stageRank e ≤ 13 := by
    intro s2 e he
    obtain ⟨d, b, rfl⟩ := povStage_shape s2 js e he
    cases d <;> simp [stageRank, povRank]
  have hax : ∀ s3, ∀ e ∈ (processAnalogSticks cfg s3 js).1,
      20 ≤ stageRank e ∧ stageRank e ≤ 23 := by
    intro s3 e he
    obtain ⟨d, b, rfl⟩ := stickStage_shape cfg s3 js e he
    cases d <;> simp [stageRank, stickRank]
  show List.Sorted _ (((processButtons cfg s js).1 ++
    (processPOV (processButtons cfg s js).2 js).1 ++
    (processAnalogSticks cfg
      (processPOV (processButtons cfg s js).2 js).2 js).1).map stageRank)
  rw [List.map_append, List.map_append]
  unfold List.Sorted
  rw [List.pairwise_append, List.pairwise_append]
  refine ⟨⟨?_, ?_, ?_⟩, ?_, ?_⟩
  · apply List.pairwise_of_forall_mem_list
    intro a ha b hb2
    simp only [List.mem_map] at ha hb2
    obtain ⟨ea, hea, rfl⟩ := ha
    obtain ⟨eb, heb, rfl⟩ := hb2
    rw [hb ea hea, hb eb heb]
  · rw [processPOV_fst]
    simp only [povOpt]
    exact sorted_map_opt_four stageRank _ _ _ _
      (by norm_num [stageRank, povRank]) (by norm_num [stageRank, povRank])
      (by norm_num [stageRank, povRank])
  · intro a ha b hb2
    simp only [List.mem_map] at ha hb2
    obtain ⟨ea, hea, rfl⟩ := ha
    obtain ⟨eb, heb, rfl⟩ := hb2
    rw [hb ea hea]
    exact Nat.zero_le _
  · rw [processSticks_fst]
    simp only [stickOpt]
    exact sorted_map_opt_four stageRank _ _ _ _
      (by norm_num [stageRank, stickRank]) (by norm_num [stageRank, stickRank])
      (by norm_num [stageRank, stickRank])
  · intro a ha b hb2
    simp only [List.mem_append, List.mem_map] at ha hb2
    obtain ⟨eb2, heb2, rfl⟩ := hb2
    have hb20 : 20 ≤ stageRank eb2 := (hax _ eb2 heb2).1
    rcases ha with ⟨ea, hea, rfl⟩ | ⟨ea, hea, rfl⟩
    · rw [hb ea hea]
      omega
    · have := (hpov _ ea hea).2
      omega

/-! ## Claim C10: hat and stick contend for the same previous-state slot -/

theorem processButtons_prevAxisDown (cfg : KeyMapping) (s : ProcState)
    (js : JoyState) :
    (processButtons cfg s js).2.prevAxisDown = s.prevAxisDown :=
  (btnFold_prevAxisDown cfg js (List.range maxButtons) s).1

theorem flap_single (cfg : KeyMapping) (s : ProcState) (js : JoyState)
    (d : Dir) (hhat : povDirs js.pov d = true)
    (hstick : stickDirs cfg.stickThreshold js.lX js.lY d = false)
    (h0 : s.prevAxisDown d = false) :
    ((processGamepadInput cfg s js).1).filter (dirSel d) =
      [.pov d true, .axis d false] ∧
    (processGamepadInput cfg s js).2.prevAxisDown d = false := by
  constructor
  · simp only [processGamepadInput]
    rw [List.filter_append, List.filter_append, btnStage_filter_dir,
      povStage_filter_eq _ _ _ hhat
        (by rw [processButtons_prevAxisDown]; exact h0),
      stickStage_filter_eq _ _ _ _ hstick
        (by rw [processPOV_prevAxisDown]; exact hhat)]
    rfl
  · rw [frame_prevAxisDown]
    exact hstick

/-- C10: while the hat holds a logical direction whose stick axes are
inside the threshold, every frame emits a press for that direction in the
hat stage and then a release for it in the stick stage — the pair recurs
on every iterate of the frame step, because the two sources contend for
the same previous-state slot. -/
theorem hat_stick_slot_flap (cfg : KeyMapping) (s : ProcState)
    (js : JoyState) (d : Dir)
    (hhat : povDirs js.pov d = true)
    (hstick : stickDirs cfg.stickThreshold js.lX js.lY d = false)
    (h0 : s.prevAxisDown d = false) :
    ∀ n : Nat,
      ((processGamepadInput cfg ((stepState cfg js)^[n] s) js).1).filter
        (dirSel d) = [.pov d true, .axis d false] := by
  have hprev : ∀ n : Nat,
      ((stepState cfg js)^[n] s).prevAxisDown d = false := by
    intro n
    cases n with
    | zero => simpa using h0
    | succ n =>
        rw [Function.iterate_succ_apply']
        show (stepState cfg js _).prevAxisDown d = false
        rw [stepState, frame_prevAxisDown]
        exact hstick
  intro n
  exact (flap_single cfg _ js d hhat hstick (hprev n)).1

/-- Witness for C10: hat held straight up, stick at rest, second frame. -/
theorem hat_stick_slot_flap_witness :
    (povDirs jsHatUp.pov Dir.up = true ∧
     stickDirs cfgDirs.stickThreshold jsHatUp.lX jsHatUp.lY Dir.up = false ∧
     resetState.prevAxisDown Dir.up = false) ∧
    ((processGamepadInput cfgDirs
        ((stepState cfgDirs jsHatUp)^[1] resetState) jsHatUp).1).filter
      (dirSel Dir.up) = [.pov Dir.up true, .axis Dir.up false] :=
  ⟨⟨by decide, by decide, by decide⟩,
   hat_stick_slot_flap cfgDirs resetState jsHatUp Dir.up (by decide)
     (by decide) (by decide) 1⟩

/-! ## Claim C9: Shutdown is idempotent -/

theorem shutdown_not_init (g : Gamepad) (h : g.initialized = false) :
    shutdown g = g := by
  simp [shutdown, h]

theorem shutdown_init_false (g : Gamepad) :
    (shutdown g).initialized = false := by
  by_cases h : g.initialized <;> simp [shutdown, h]

/-- C9: `Shutdown` is idempotent — a second call changes nothing — and
the first call on an initialized controller releases the acquisition, the
device handle, the configuration and the processor (edge state), and
clears the flags. -/
theorem shutdown_idempotent (g : Gamepad) :
    shutdown (shutdown g) = shutdown g ∧
    (g.initialized = true →
      (shutdown g).acquired = false ∧ (shutdown g).device = false ∧
      (shutdown g).proc = none ∧ (shutdown g).configLoaded = false ∧
      (shutdown g).connected = false ∧
      (shutdown g).initialized = false) := by
  refine ⟨shutdown_not_init _ (shutdown_init_false g), ?_⟩
  intro h
  simp [shutdown, h, unacquireDevice]

/-- Witness for C9 on a connected, acquired, initialized controller. -/
theorem shutdown_idempotent_witness :
    gConn.initialized = true ∧
    (shutdown (shutdown gConn) = shutdown gConn ∧
     ((shutdown gConn).acquired = false ∧ (shutdown gConn).device = false ∧
      (shutdown gConn).proc = none ∧ (shutdown gConn).configLoaded = false ∧
      (shutdown gConn).connected = false ∧
      (shutdown gConn).initialized = false)) :=
  ⟨rfl, (shutdown_idempotent gConn).1, (shutdown_idempotent gConn).2 rfl⟩

/-! ## Claim C6: device-lost handling in PollAndGetState -/

/-- C6 counterexample: when `GetDeviceState` fails with `DIERR_UNPLUGGED`
the poll disconnects and unacquires, but the device handle is NOT dropped
— `m_device` keeps its value — refuting "drops the underlying device
handle". -/
theorem device_lost_keeps_handle :
    (pollAndGetState gConn .ok .ok .unplugged jsNeutral).2 = false ∧
    (pollAndGetState gConn .ok .ok .unplugged jsNeutral).1.connected =
      false ∧
    (pollAndGetState gConn .ok .ok .unplugged jsNeutral).1.acquired =
      false ∧
    (pollAndGetState gConn .ok .ok .unplugged jsNeutral).1.device = true := by
  refine ⟨by decide, by decide, by decide, by decide⟩

/-- C6 (amended): on a state read failing with one of the distinguished
error classes the controller marks itself Disconnected, releases its
acquisition and the poll returns failure; the device handle is retained
(it is replaced only when reconnection recreates the device). -/
theorem device_lost_disconnects (g : Gamepad)
    (pollRes acqRes stateRes : HRes) (sample : JoyState)
    (hd : g.device = true) (hi : g.initialized = true)
    (hreach : pollRes = .ok ∨ acqRes = .ok)
    (hs : stateRes = .inputLost ∨ stateRes = .notAcquired ∨
      stateRes = .unplugged) :
    (pollAndGetState g pollRes acqRes stateRes sample).2 = false ∧
    (pollAndGetState g pollRes acqRes stateRes sample).1.connected =
      false ∧
    (pollAndGetState g pollRes acqRes stateRes sample).1.acquired =
      false ∧
    (pollAndGetState g pollRes acqRes stateRes sample).1.device =
      g.device := by
  have h2 : ¬ (pollRes ≠ HRes.ok ∧ acqRes ≠ HRes.ok) := by tauto
  have hsne : stateRes ≠ HRes.ok := by
    rcases hs with h | h | h <;> subst h <;> simp
  unfold pollAndGetState
  rw [if_neg (by simp [hd, hi]), if_neg h2, if_pos hsne, if_pos hs]
  unfold unacquireDevice
  by_cases ha : g.acquired = true <;> simp [hd, ha]

/-- Witness for C6 on a connected controller with a clean poll and an
unplugged state read. -/
theorem device_lost_disconnects_witness :
    (gConn.device = true ∧ gConn.initialized = true ∧
     (HRes.ok = HRes.ok ∨ HRes.ok = HRes.ok) ∧
     (HRes.unplugged = HRes.inputLost ∨
      HRes.unplugged = HRes.notAcquired ∨
      HRes.unplugged = HRes.unplugged)) ∧
    ((pollAndGetState gConn .ok .ok .unplugged jsNeutral).2 = false ∧
     (pollAndGetState gConn .ok .ok .unplugged jsNeutral).1.connected =
       false ∧
     (pollAndGetState gConn .ok .ok .unplugged jsNeutral).1.acquired =
       false ∧
     (pollAndGetState gConn .ok .ok .unplugged jsNeutral).1.device =
       gConn.device) :=
  ⟨⟨rfl, rfl, Or.inl rfl, by decide⟩,
   device_lost_disconnects gConn .ok .ok .unplugged jsNeutral rfl rfl
     (Or.inl rfl) (by decide)⟩

/-! ## Claim C1: edge state across reconnection -/

/-- C1: `TryToReconnect` never touches the input processor, so the
edge-detector state survives reconnection un-reset; with button 0
recorded pressed from before the disconnect, a successful reconnection
keeps that state, and the first post-reconnect frame on an all-released
sample emits a spurious RELEASE for button 0 — whereas from the reset
state the same frame emits nothing. -/
theorem reconnect_keeps_stale_edge_state :
    (tryToReconnect gDisc true true true true).2 = true ∧
    (tryToReconnect gDisc true true true true).1.proc = some procHeld ∧
    procHeld.prevButtons 0 = true ∧
    resetState.prevButtons 0 = false ∧
    (processGamepadInput cfgBtn procHeld jsNeutral).1 =
      [.button 0 false] ∧
    (processGamepadInput cfgBtn resetState jsNeutral).1 = [] := by
  refine ⟨by decide, rfl, by decide, by decide, by decide, by decide⟩

/-! ## Character-level lemmas for the resolver -/

theorem char_toNat_ofNat (n : Nat) (h : n.isValidChar) :
    (Char.ofNat n).toNat = n := by
  unfold Char.ofNat
  rw [dif_pos h]
  unfold Char.ofNatAux Char.toNat
  simp [UInt32.toNat, UInt32.ofNat']

theorem char_eq_iff_toNat (c d : Char) : c = d ↔ c.toNat = d.toNat :=
  ⟨fun h => h ▸ rfl, fun h => Char.ext (UInt32.ext h)⟩

theorem tla_toNat (c : Char) :
    (toLowerAscii c).toNat =
      if 65 ≤ c.toNat ∧ c.toNat ≤ 90 then c.toNat + 32 else c.toNat := by
  unfold toLowerAscii
  by_cases h : 65 ≤ c.toNat ∧ c.toNat ≤ 90
  · rw [if_pos h, if_pos h, char_toNat_ofNat _ (Or.inl (by omega))]
  · rw [if_neg h, if_neg h]

theorem tla_idem (c : Char) :
    toLowerAscii (toLowerAscii c) = toLowerAscii c := by
  rw [char_eq_iff_toNat, tla_toNat (toLowerAscii c), tla_toNat c]
  split_ifs <;> omega

theorem lowerStr_idem (s : String) : lowerStr (lowerStr s) = lowerStr s := by
  unfold lowerStr
  rw [show (String.mk (s.data.map toLowerAscii)).data =
      s.data.map toLowerAscii from rfl, List.map_map,
    show toLowerAscii ∘ toLowerAscii = toLowerAscii from funext tla_idem]

theorem isSpace_tla (c : Char) :
    isSpaceChar (toLowerAscii c) = isSpaceChar c := by
  unfold isSpaceChar
  rw [decide_eq_decide, tla_toNat]
  split_ifs <;> omega

theorem tla_eq_nonletter (c d : Char)
    (hd : d.toNat < 65 ∨ (90 < d.toNat ∧ d.toNat < 97) ∨ 122 < d.toNat) :
    (toLowerAscii c = d) ↔ c = d := by
  rw [char_eq_iff_toNat, char_eq_iff_toNat, tla_toNat]
  split_ifs <;> omega

theorem tla_eq_x (c : Char) :
    (toLowerAscii c = 'x') ↔ (c = 'x' ∨ c = 'X') := by
  rw [char_eq_iff_toNat, char_eq_iff_toNat, char_eq_iff_toNat, tla_toNat]
  rw [show ('x' : Char).toNat = 120 from rfl,
    show ('X' : Char).toNat = 88 from rfl]
  split_ifs <;> omega

theorem tla_ne_X (c : Char) : toLowerAscii c ≠ 'X' := by
  rw [Ne, char_eq_iff_toNat, tla_toNat,
    show ('X' : Char).toNat = 88 from rfl]
  split_ifs <;> omega

theorem digitVal_tla (b : Nat) (c : Char) :
    digitVal b (toLowerAscii c) = digitVal b c := by
  unfold digitVal
  rw [tla_toNat]
  split_ifs <;> first
    | rfl
    | omega

theorem digitsPrefix_tla (b : Nat) (l : List Char) :
    digitsPrefix b (l.map toLowerAscii) = digitsPrefix b l := by
  induction l with
  | nil => rfl
  | cons c l ih =>
      rw [List.map_cons]
      simp only [digitsPrefix, digitVal_tla]
      cases h : digitVal b c <;> simp [h, ih]

theorem spaceLen_tla (cs : List Char) :
    spaceLen (cs.map toLowerAscii) = spaceLen cs := by
  unfold spaceLen
  rw [List.takeWhile_map,
    show (isSpaceChar ∘ toLowerAscii) = isSpaceChar from funext isSpace_tla]
  simp

theorem signParse_tla (cs : List Char) :
    signParse (cs.map toLowerAscii) =
      ((signParse cs).1, (signParse cs).2.1,
       (signParse cs).2.2.map toLowerAscii) := by
  cases cs with
  | nil => rfl
  | cons c cs2 =>
      rw [List.map_cons]
      show (if toLowerAscii c = '-' then ((-1 : Int), 1, cs2.map toLowerAscii)
        else if toLowerAscii c = '+' then (1, 1, cs2.map toLowerAscii)
        else (1, 0, toLowerAscii c :: cs2.map toLowerAscii)) = _
      by_cases hm : c = '-'
      · rw [if_pos ((tla_eq_nonletter c _ (by decide)).mpr hm)]
        rw [show signParse (c :: cs2) = (-1, 1, cs2) from by
          simp [signParse, hm]]
      · rw [if_neg (fun h => hm ((tla_eq_nonletter c _ (by decide)).mp h))]
        by_cases hp : c = '+'
        · rw [if_pos ((tla_eq_nonletter c _ (by decide)).mpr hp)]
          rw [show signParse (c :: cs2) = (1, 1, cs2) from by
            simp [signParse, hm, hp]]
        · rw [if_neg (fun h => hp ((tla_eq_nonletter c _ (by decide)).mp h))]
          rw [show signParse (c :: cs2) = (1, 0, c :: cs2) from by
            simp [signParse, hm, hp]]
          rfl

theorem hexPrefixParse_ten (cs : List Char) : hexPrefixParse 10 cs = (0, cs) := by
  cases cs with
  | nil => rfl
  | cons c0 t =>
      cases t with
      | nil => rfl
      | cons c1 t2 => rfl

theorem hexPrefixParse_tla16 (cs : List Char) :
    hexPrefixParse 16 (cs.map toLowerAscii) =
      ((hexPrefixParse 16 cs).1, (hexPrefixParse 16 cs).2.map toLowerAscii) := by
  cases cs with
  | nil => rfl
  | cons c0 t =>
    cases t with
    | nil => rfl
    | cons c1 cs3 =>
        rw [List.map_cons, List.map_cons]
        have hdig : hexDigitFollows (cs3.map toLowerAscii) =
            hexDigitFollows cs3 := by
          cases cs3 with
          | nil => rfl
          | cons d t3 =>
              rw [List.map_cons]
              show (digitVal 16 (toLowerAscii d)).isSome = _
              rw [digitVal_tla]
              rfl
        have hcond : (toLowerAscii c0 = '0' ∧
            (toLowerAscii c1 = 'x' ∨ toLowerAscii c1 = 'X') ∧
            hexDigitFollows (cs3.map toLowerAscii) = true) ↔
            (c0 = '0' ∧ (c1 = 'x' ∨ c1 = 'X') ∧
            hexDigitFollows cs3 = true) := by
          rw [hdig, tla_eq_nonletter c0 _ (by decide)]
          constructor
          · rintro ⟨h1, h2, h3⟩
            rcases h2 with h2 | h2
            · exact ⟨h1, (tla_eq_x c1).mp h2, h3⟩
            · exact absurd h2 (tla_ne_X c1)
          · rintro ⟨h1, h2, h3⟩
            exact ⟨h1, Or.inl ((tla_eq_x c1).mpr h2), h3⟩
        by_cases hc : c0 = '0' ∧ (c1 = 'x' ∨ c1 = 'X') ∧
            hexDigitFollows cs3 = true
        · rw [show hexPrefixParse 16
              (toLowerAscii c0 :: toLowerAscii c1 :: cs3.map toLowerAscii) =
              (2, cs3.map toLowerAscii) from by
            simp only [hexPrefixParse]
            rw [if_pos (hcond.mpr hc)]]
          rw [show hexPrefixParse 16 (c0 :: c1 :: cs3) = (2, cs3) from by
            simp only [hexPrefixParse]
            rw [if_pos hc]]
        · rw [show hexPrefixParse 16
              (toLowerAscii c0 :: toLowerAscii c1 :: cs3.map toLowerAscii) =
              (0, toLowerAscii c0 :: toLowerAscii c1 :: cs3.map toLowerAscii)
              from by
            simp only [hexPrefixParse]
            rw [if_neg (fun h => hc (hcond.mp h))]]
          rw [show hexPrefixParse 16 (c0 :: c1 :: cs3) =
              (0, c0 :: c1 :: cs3) from by
            simp only [hexPrefixParse]
            rw [if_neg hc]]
          rw [List.map_cons, List.map_cons]

theorem strtoll_tla (b : Nat) (hb : b = 10 ∨ b = 16) (cs : List Char) :
    strtollModel b (cs.map toLowerAscii) = strtollModel b cs := by
  have hpre : ∀ l : List Char, hexPrefixParse b (l.map toLowerAscii) =
      ((hexPrefixParse b l).1, (hexPrefixParse b l).2.map toLowerAscii) := by
    rcases hb with rfl | rfl
    · intro l
      rw [hexPrefixParse_ten, hexPrefixParse_ten]
    · exact hexPrefixParse_tla16
  simp only [strtollModel]
  rw [spaceLen_tla,
    show (cs.map toLowerAscii).drop (spaceLen cs) =
      (cs.drop (spaceLen cs)).map toLowerAscii from
      (List.map_drop _ _ _).symm,
    signParse_tla, hpre, digitsPrefix_tla]

theorem map_tla_eq_zx (t : List Char) :
    (t.map toLowerAscii = ['0', 'x'] ∨ t.map toLowerAscii = ['0', 'X']) ↔
      (t = ['0', 'x'] ∨ t = ['0', 'X']) := by
  cases t with
  | nil => simp
  | cons a t1 =>
    cases t1 with
    | nil => simp
    | cons b t2 =>
      simp only [List.map_cons, List.cons.injEq]
      constructor
      · rintro (⟨h1, h2, h3⟩ | ⟨h1, h2, h3⟩)
        · rcases (tla_eq_x b).mp h2 with hb | hb
          · exact Or.inl ⟨(tla_eq_nonletter a _ (by decide)).mp h1, hb,
              by simpa using h3⟩
          · exact Or.inr ⟨(tla_eq_nonletter a _ (by decide)).mp h1, hb,
              by simpa using h3⟩
        · exact absurd h2 (tla_ne_X b)
      · rintro (⟨h1, h2, h3⟩ | ⟨h1, h2, h3⟩) <;> subst h1 <;> subst h2 <;>
          subst h3
        · exact Or.inl ⟨by decide, by decide, rfl⟩
        · exact Or.inl ⟨by decide, by decide, rfl⟩

theorem isHexName_tla (cs : List Char) :
    isHexName (cs.map toLowerAscii) = isHexName cs := by
  unfold isHexName
  rw [decide_eq_decide, List.length_map,
    show (cs.map toLowerAscii).take 2 = (cs.take 2).map toLowerAscii from
      List.map_take .. |>.symm,
    map_tla_eq_zx]

theorem parseNumericKey_tla (name : String) :
    parseNumericKey (lowerStr name) = parseNumericKey name := by
  have hb : (if isHexName name.data then 16 else 10) = 10 ∨
      (if isHexName name.data then 16 else 10) = 16 := by
    by_cases h : isHexName name.data = true <;> simp [h]
  simp only [parseNumericKey]
  rw [show (lowerStr name).data = name.data.map toLowerAscii from rfl,
    isHexName_tla, List.length_map, strtoll_tla _ hb]

/-- Resolution is insensitive to the case of the name: lowercasing the
input first changes nothing. -/
theorem resolve_tla (name : String) :
    resolve (lowerStr name) = resolve name := by
  unfold resolve
  rw [show lowerStr (lowerStr name) = lowerStr name from lowerStr_idem name,
    parseNumericKey_tla]

theorem resolveSeq_foldl (l : List String) :
    ∀ acc : List Nat,
      l.foldl
        (fun acc key =>
          match resolve key with
          | some v => acc ++ [v]
          | none => acc) acc = acc ++ l.filterMap resolve := by
  induction l with
  | nil => intro acc; simp
  | cons k l ih =>
      intro acc
      rw [List.foldl_cons, List.filterMap_cons]
      cases h : resolve k with
      | none =>
          simp only [h]
          exact ih acc
      | some v =>
          simp only [h]
          rw [ih (acc ++ [v])]
          simp

/-- C8 counterexample: "4294967296" (2^32) is not in the table and its
parsed value is far outside `[0, 0xFFFF]`, yet resolution succeeds — the
`static_cast<long>` truncation wraps 2^32 to 0, which passes the range
check — refuting "otherwise resolution returns NotFound". -/
theorem resolve_wraps_out_of_range :
    keyMapList.lookup (lowerStr "4294967296") = none ∧
    strtollModel 10 "4294967296".data = some (4294967296, 10) ∧
    ¬ ((4294967296 : Int) ≤ 0xFFFF) ∧
    resolve "4294967296" = some 0 :=
  ⟨by decide, by decide, by decide, by decide⟩

/-- C8 (amended): resolution is a case-insensitive lookup in the static
table (lowercasing the name first changes nothing) with a numeric
fallback accepting `0x`/`0X`-prefixed hex or plain decimal (with
`strtoll` lenience) whose value, truncated to a 32-bit signed `long`,
lies in `[0, 0xFFFF]` — so out-of-range values whose truncation lands in
range also resolve; `resolveSequence` maps a list of names to the codes
of exactly its resolvable entries in input order, dropping the rest. -/
theorem resolver_behaviour :
    (∀ keys : List String, resolveSequence keys = keys.filterMap resolve) ∧
    (∀ name : String, resolve (lowerStr name) = resolve name) ∧
    resolve "CTRL" = some 0x11 ∧ resolve "ctrl" = some 0x11 ∧
    resolve "a" = some 0x41 ∧ resolve "0x41" = some 0x41 ∧
    resolve "0X7F" = some 0x7F ∧ resolve "65535" = some 65535 ∧
    resolve "65536" = none ∧ resolve "0x10000" = none ∧
    resolve "abc?" = none ∧ resolve "-1" = none ∧
    resolve "4294967296" = some 0 ∧
    resolveSequence ["ctrl", "c", "nokey", "0x41"] = [0x11, 0x43, 0x41] := by
  refine ⟨?_, resolve_tla, by decide, by decide, by decide, by decide,
    by decide, by decide, by decide, by decide, by decide, by decide,
    by decide, by decide⟩
  intro keys
  unfold resolveSequence
  rw [resolveSeq_foldl]
  rfl

end GamepadMapper
